import Mathlib

/-!
Shallow embedding of the Opple Light Master telemetry scripts
(`OPPLE_read.py`, `OPPLE_read_1.py`).

Modelling conventions:
* a Python `bytes` value is a `List Nat` whose elements are byte values
  (< 256 where a claim needs it); the `raw_hex` dump of a frame is carried
  as the byte list itself (the hex string is a faithful image of the bytes);
* `struct.unpack` is a fallible primitive returning `Except String Nat`;
  the scripts' `try/except struct.error` blocks become a `match` sending
  the error to the scripts' explicit `"ERROR: ..."` string result, so the
  outer classifier has type `Except String ParseResult` where a `.error`
  would mean an uncaught Python exception escaping to the caller;
* the notification handler's effect on the module-level
  `current_measurements` list is explicit state passing
  (`List MRecord → List MRecord`);
* CSV export is modelled as the sequence of rows written to the file,
  `none` meaning the function returned early and wrote no file;
* Python float division in `calculate_average` is modelled as exact
  division in `ℚ`.
-/

/-- UUID of the nominal data notification characteristic (Rx). -/
def OPPLE_CHARACTERISTIC_UUID_DATA_RX : String :=
  "6e400002-b5a3-f393-e0a9-e50e24dcca9e"

/-- UUID of the command characteristic (Tx), the channel actually carrying
measurement and battery frames. -/
def OPPLE_CHARACTERISTIC_UUID_COMMAND_TX : String :=
  "6e400003-b5a3-f393-e0a9-e50e24dcca9e"

/-- Python slice `l[a:b]` for `0 ≤ a ≤ b` (the only shape used by the parser). -/
def pySlice (l : List Nat) (a b : Nat) : List Nat :=
  (l.drop a).take (b - a)

/-- Model of `struct.unpack('<H', bs)[0]`: little-endian unsigned 16-bit;
raises `struct.error` unless given exactly two bytes. -/
def structUnpackLEu16 : List Nat → Except String Nat
  | [b0, b1] => .ok (b0 + 256 * b1)
  | _ => .error "struct.error"

/-- Model of `struct.unpack('>H', bs)[0]`: big-endian unsigned 16-bit;
raises `struct.error` unless given exactly two bytes. -/
def structUnpackBEu16 : List Nat → Except String Nat
  | [b0, b1] => .ok (256 * b0 + b1)
  | _ => .error "struct.error"

/-- The `measurement_state` values assigned by the parser. -/
inductive MeasState where
  | DARK
  | LIGHT_DETECTED
  deriving DecidableEq

/-- Closed union of the values `parse_opple_data` returns: the dict-shaped
records keyed by `packet_type`, and the ad hoc `"ERROR:"` / `"INFO:"`
strings. -/
inductive ParseResult where
  | measurement20 (raw_hex : List Nat) (rawVal1 rawVal2 rawVal3 : Nat)
      (measurement_state : MeasState)
  | battery11 (raw_hex : List Nat) (rawBattery_mV : Nat)
  | unknownLenFromCommandChar (byte_length : Nat) (raw_hex : List Nat)
  | rxCandidate (raw_hex : List Nat) (data_length : Nat)
  | errorString (msg : String)
  | infoString (msg : String)
  deriving DecidableEq

/-- The 20-byte branch of `parse_opple_data`: three little-endian unsigned
shorts from byte offsets 14-15, 16-17, 18-19; `DARK` when all three are zero;
the `try/except` turns an unpack failure into the error-string result. -/
def parse20 (data : List Nat) (source_uuid : String) : ParseResult :=
  match structUnpackLEu16 (pySlice data 14 16),
        structUnpackLEu16 (pySlice data 16 18),
        structUnpackLEu16 (pySlice data 18 20) with
  | .ok raw_val1, .ok raw_val2, .ok raw_val3 =>
      .measurement20 data raw_val1 raw_val2 raw_val3
        (if raw_val1 = 0 ∧ raw_val2 = 0 ∧ raw_val3 = 0 then .DARK
         else .LIGHT_DETECTED)
  | _, _, _ =>
      .errorString ("ERROR: Could not unpack 20-byte data from " ++ source_uuid)

/-- The 11-byte branch of `parse_opple_data`: one big-endian unsigned short
from byte offsets 8-9. -/
def parse11 (data : List Nat) (source_uuid : String) : ParseResult :=
  match structUnpackBEu16 (pySlice data 8 10) with
  | .ok raw_battery_mv => .battery11 data raw_battery_mv
  | .error _ =>
      .errorString ("ERROR: Could not unpack 11-byte battery data from " ++ source_uuid)

/-- Embedding of `parse_opple_data(data, source_uuid)` (identical in
`OPPLE_read.py` and `OPPLE_read_1.py`).  A `.error` result would model an
uncaught Python exception propagating to the caller. -/
def parse_opple_data (data : List Nat) (source_uuid : String) :
    Except String ParseResult :=
  if source_uuid.toLower = OPPLE_CHARACTERISTIC_UUID_COMMAND_TX.toLower then
    if data.length = 20 then
      .ok (parse20 data source_uuid)
    else if data.length = 11 then
      .ok (parse11 data source_uuid)
    else
      .ok (.unknownLenFromCommandChar data.length data)
  else if source_uuid.toLower = OPPLE_CHARACTERISTIC_UUID_DATA_RX.toLower then
    .ok (.rxCandidate data data.length)
  else
    .ok (.infoString ("INFO: Data from unhandled characteristic " ++ source_uuid))

/-- Unsigned 16-bit little-endian integer at byte offsets `i`, `i+1`, as the
spec describes the primary fields. -/
def u16LE (l : List Nat) (i : Nat) : Nat :=
  l.getD i 0 + 256 * l.getD (i + 1) 0

/-- Unsigned 16-bit big-endian integer at byte offsets `i`, `i+1`, as the
spec describes the battery field. -/
def u16BE (l : List Nat) (i : Nat) : Nat :=
  256 * l.getD i 0 + l.getD (i + 1) 0

/-- One buffered measurement entry, the dict appended to
`current_measurements` by `notification_handler` in `OPPLE_read_1.py`
(and, without the `RawBattery_mV` key, in `OPPLE_read.py`).  `none` models
both a key set to Python `None` and an absent key, since every consumer
reads the dict with `.get` / `key in m and m[key] is not None`. -/
structure MRecord where
  timestamp : String
  raw_hex : List Nat
  RawVal_1 : Option Nat
  RawVal_2 : Option Nat
  RawVal_3 : Option Nat
  RawBattery_mV : Option Nat
  App_Lux : Option ℚ
  App_CCT : Option ℚ
  App_Ra : Option ℚ
  App_x : Option ℚ
  App_y : Option ℚ
  App_u : Option ℚ
  App_v : Option ℚ
  App_Battery_Percent : Option ℚ
  deriving DecidableEq

/-- The measurement entry built for a LIGHT_DETECTED 20-byte frame in
`notification_handler` of `OPPLE_read_1.py`: raw values from the frame,
`RawBattery_mV` and all App placeholders `None`. -/
def mkMeasurementEntry (ts : String) (rh : List Nat) (v1 v2 v3 : Nat) :
    MRecord :=
  { timestamp := ts
    raw_hex := rh
    RawVal_1 := some v1
    RawVal_2 := some v2
    RawVal_3 := some v3
    RawBattery_mV := none
    App_Lux := none
    App_CCT := none
    App_Ra := none
    App_x := none
    App_y := none
    App_u := none
    App_v := none
    App_Battery_Percent := none }

/-- Effect of `notification_handler` (`OPPLE_read_1.py`) on
`current_measurements` for one already-parsed result: append on a
LIGHT_DETECTED 20-byte record, attach the battery value of an 11-byte
record to the last entry when that entry's `RawBattery_mV` is still `None`,
and leave the buffer unchanged in every other case (DARK frames and the
remaining results are only logged). -/
def on_decoded (buf : List MRecord) (ts : String) (r : ParseResult) :
    List MRecord :=
  match r with
  | .measurement20 rh v1 v2 v3 st =>
      if st = .LIGHT_DETECTED then buf ++ [mkMeasurementEntry ts rh v1 v2 v3]
      else buf
  | .battery11 _ mv =>
      match buf.getLast? with
      | some lastRec =>
          if lastRec.RawBattery_mV = none then
            buf.dropLast ++ [{ lastRec with RawBattery_mV := some mv }]
          else buf
      | none => buf
  | _ => buf

/-- The full notification path for one frame: parse, then update the buffer.
A `.error` from the parser would propagate out of the Python handler; the
buffer is returned unchanged in that (unreachable) case. -/
def notification_handler (buf : List MRecord) (ts : String)
    (sender_uuid : String) (data : List Nat) : List MRecord :=
  match parse_opple_data data sender_uuid with
  | .ok r => on_decoded buf ts r
  | .error _ => buf

/-- A delivered notification: timestamp, sender UUID, frame bytes. -/
abbrev Frame := String × String × List Nat

/-- Process a sequence of delivered frames in order. -/
def handleFrames (buf : List MRecord) (frames : List Frame) : List MRecord :=
  frames.foldl (fun b f => notification_handler b f.1 f.2.1 f.2.2) buf

/-- A value written into one CSV cell by `csv.DictWriter`. -/
inductive CellVal where
  | null
  | s (v : String)
  | n (v : Nat)
  | bytes (v : List Nat)
  | q (v : ℚ)
  deriving DecidableEq

/-- The `fieldnames` header list of `save_measurements_to_csv`. -/
def fieldnames : List String :=
  ["timestamp", "raw_hex", "RawVal_1", "RawVal_2", "RawVal_3",
   "RawBattery_mV", "App_Lux", "App_CCT", "App_Ra", "App_x", "App_y",
   "App_u", "App_v", "App_Battery_Percent"]

def cellOfOptNat : Option Nat → CellVal
  | none => .null
  | some v => .n v

def cellOfOptQ : Option ℚ → CellVal
  | none => .null
  | some v => .q v

/-- The row written for one measurement dict, in `fieldnames` order. -/
def csvRowOf (r : MRecord) : List CellVal :=
  [.s r.timestamp, .bytes r.raw_hex, cellOfOptNat r.RawVal_1,
   cellOfOptNat r.RawVal_2, cellOfOptNat r.RawVal_3,
   cellOfOptNat r.RawBattery_mV, cellOfOptQ r.App_Lux, cellOfOptQ r.App_CCT,
   cellOfOptQ r.App_Ra, cellOfOptQ r.App_x, cellOfOptQ r.App_y,
   cellOfOptQ r.App_u, cellOfOptQ r.App_v, cellOfOptQ r.App_Battery_Percent]

/-- Embedding of `save_measurements_to_csv(filename, data_list)` (identical
in both scripts): the function returns early, writing no file at all, when
`data_list` is empty; otherwise it writes the header row followed by one
row per record.  `none` models "no file written"; `some (header, rows)`
models the written file. -/
def save_measurements_to_csv (data_list : List MRecord) :
    Option (List String × List (List CellVal)) :=
  if data_list.isEmpty then none
  else some (fieldnames, data_list.map csvRowOf)

/-- The per-field aggregate dict returned by `calculate_average`
(`OPPLE_read.py`).  A field that is absent from the returned dict (empty
input) and a field explicitly set to `None` are both `none`. -/
structure AvgData where
  RawVal_1 : Option ℚ
  RawVal_2 : Option ℚ
  RawVal_3 : Option ℚ
  RawBattery_mV : Option ℚ
  deriving DecidableEq

/-- `sum(values) / len(values)` over the collected non-null values of one
key, `None` when the list is empty; division is exact in `ℚ`. -/
def averageOf (values : List Nat) : Option ℚ :=
  if values = [] then none
  else some ((values.map fun v => (v : ℚ)).sum / values.length)

/-- Embedding of `calculate_average(measurements)` (`OPPLE_read.py`): the
empty-input early return yields the empty dict; otherwise each of the four
keys gets the mean of its non-null occurrences, or `None`. -/
def calculate_average (measurements : List MRecord) : AvgData :=
  if measurements = [] then ⟨none, none, none, none⟩
  else
    ⟨averageOf (measurements.filterMap MRecord.RawVal_1),
     averageOf (measurements.filterMap MRecord.RawVal_2),
     averageOf (measurements.filterMap MRecord.RawVal_3),
     averageOf (measurements.filterMap MRecord.RawBattery_mV)⟩

/-- Arithmetic mean of the non-null entries of one field across a list of
records, stated from the spec's words: records where the field is null or
absent are excluded, and the result is null when no record has a value. -/
def meanOfPresent (xs : List (Option Nat)) : Option ℚ :=
  match xs.filterMap id with
  | [] => none
  | vals => some ((vals.map fun v => (v : ℚ)).sum / vals.length)

/-- The two command writes of one polling iteration of
`run_measurement_phase`. -/
inductive PhaseCmd where
  | START_MEASUREMENT
  | STOP_MEASUREMENT
  deriving DecidableEq

/-- External behaviour surrounding one phase's polling loop
(`run_measurement_phase`, `OPPLE_read_1.py`): whether the START / STOP
write of iteration `i` succeeds, and which notifications the transport
delivers during the dwell after START and the settle after STOP of
iteration `i`. -/
structure TransportEnv where
  startOk : Nat → Bool
  stopOk : Nat → Bool
  framesAfterStart : Nat → List Frame
  framesAfterStop : Nat → List Frame

/-- One iteration of the polling loop: attempt START, process the dwell
notifications, attempt STOP, process the settle notifications; a failed
write raises, is caught, and breaks the loop.  Returns the buffer, the
command writes attempted this iteration, and whether the loop continues. -/
def runIter (env : TransportEnv) (buf : List MRecord) (i : Nat) :
    List MRecord × List (Nat × PhaseCmd) × Bool :=
  if env.startOk i then
    let buf1 := handleFrames buf (env.framesAfterStart i)
    if env.stopOk i then
      (handleFrames buf1 (env.framesAfterStop i),
       [(i, .START_MEASUREMENT), (i, .STOP_MEASUREMENT)], true)
    else
      (buf1, [(i, .START_MEASUREMENT), (i, .STOP_MEASUREMENT)], false)
  else
    (buf, [(i, .START_MEASUREMENT)], false)

/-- The `for i in range(...)` loop of `run_measurement_phase`, from
iteration `i` with `fuel` iterations left.  Returns the final buffer, the
trace of attempted command writes, and the index one past the last
iteration entered. -/
def runLoopFrom (env : TransportEnv) :
    Nat → Nat → List MRecord → List (Nat × PhaseCmd) →
    List MRecord × List (Nat × PhaseCmd) × Nat
  | i, 0, buf, tr => (buf, tr, i)
  | i, fuel + 1, buf, tr =>
      match runIter env buf i with
      | (buf2, cmds, true) => runLoopFrom env (i + 1) fuel buf2 (tr ++ cmds)
      | (buf2, cmds, false) => (buf2, tr ++ cmds, i + 1)

/-- Outcome of one phase: the exported file (if any), the final buffer, the
number of iterations entered, and the trace of attempted command writes. -/
structure PhaseRun where
  exported : Option (List String × List (List CellVal))
  buffer : List MRecord
  itersRun : Nat
  trace : List (Nat × PhaseCmd)
  deriving DecidableEq

/-- Embedding of `run_measurement_phase` (`OPPLE_read_1.py`): clear the
buffer, run the polling loop, then hand the surviving buffer to
`save_measurements_to_csv`. -/
def run_measurement_phase (env : TransportEnv) (num_measurements : Nat) :
    PhaseRun :=
  { exported := save_measurements_to_csv (runLoopFrom env 0 num_measurements [] []).1
    buffer := (runLoopFrom env 0 num_measurements [] []).1
    itersRun := (runLoopFrom env 0 num_measurements [] []).2.2
    trace := (runLoopFrom env 0 num_measurements [] []).2.1 }

/-- Buffer contents after `i` fully successful polling iterations starting
from the cleared buffer. -/
def bufThroughFull (env : TransportEnv) : Nat → List MRecord
  | 0 => []
  | i + 1 =>
      handleFrames
        (handleFrames (bufThroughFull env i) (env.framesAfterStart i))
        (env.framesAfterStop i)

/-- Command-write trace of `i` fully successful polling iterations. -/
def traceThroughFull (env : TransportEnv) : Nat → List (Nat × PhaseCmd)
  | 0 => []
  | i + 1 =>
      traceThroughFull env i ++
        [(i, .START_MEASUREMENT), (i, .STOP_MEASUREMENT)]

/-- A buffered record whose raw fields could only have come from a
LIGHT_DETECTED primary sample: all three raw values are present and they
are not all zero (all-zero is exactly the parser's DARK condition). -/
def lightBuffered (rec : MRecord) : Prop :=
  rec.RawVal_1 ≠ none ∧ rec.RawVal_2 ≠ none ∧ rec.RawVal_3 ≠ none ∧
    ¬(rec.RawVal_1 = some 0 ∧ rec.RawVal_2 = some 0 ∧ rec.RawVal_3 = some 0)

/-- Concrete 20-byte command-channel frame used as evaluation input:
bytes 14-19 are 0x0b 0x00 0xb2 0x10 0x82 0x16. -/
def dataW20 : List Nat :=
  [0, 0, 0, 0, 0, 0, 0, 0, 0, 0, 0, 0, 0, 0, 0x0b, 0x00, 0xb2, 0x10, 0x82, 0x16]

/-- Concrete 11-byte command-channel frame used as evaluation input:
bytes 8-9 are 0x27 0x10. -/
def dataW11 : List Nat := [0, 0, 0, 0, 0, 0, 0, 0, 0x27, 0x10, 0]

/-- Concrete buffered record with no battery value attached yet. -/
def recW : MRecord := mkMeasurementEntry "t1" dataW20 11 4274 5762

/-- Concrete frame sequence delivering one LIGHT_DETECTED primary frame. -/
def framesW : List Frame :=
  [("t1", OPPLE_CHARACTERISTIC_UUID_COMMAND_TX, dataW20)]

/-- Concrete transport environment: iteration 0 succeeds and sees one
primary frame during the dwell, the START write of iteration 1 fails. -/
def envW : TransportEnv :=
  { startOk := fun j => j == 0
    stopOk := fun _ => true
    framesAfterStart := fun j => if j = 0 then framesW else []
    framesAfterStop := fun _ => [] }

lemma slice_pair (l : List Nat) (i j : Nat) (hj : j = i + 2)
    (h : i + 1 < l.length) :
    pySlice l i j = [l.getD i 0, l.getD (i + 1) 0] := by
  subst hj
  have h0 : i < l.length := by omega
  unfold pySlice
  rw [show i + 2 - i = 2 by omega]
  rw [List.drop_eq_getElem_cons h0, List.drop_eq_getElem_cons h]
  simp only [List.take_succ_cons, List.take_zero, List.getD_eq_getElem?_getD,
    List.getElem?_eq_getElem h0, List.getElem?_eq_getElem h, Option.getD_some]

lemma parse_cmd20_eq (data : List Nat) (uuid : String)
    (hu : uuid.toLower = OPPLE_CHARACTERISTIC_UUID_COMMAND_TX.toLower)
    (hl : data.length = 20) :
    parse_opple_data data uuid =
      .ok (.measurement20 data (u16LE data 14) (u16LE data 16) (u16LE data 18)
        (if u16LE data 14 = 0 ∧ u16LE data 16 = 0 ∧ u16LE data 18 = 0
         then .DARK else .LIGHT_DETECTED)) := by
  have h14 : pySlice data 14 16 = [data.getD 14 0, data.getD 15 0] :=
    slice_pair data 14 16 (by norm_num) (by omega)
  have h16 : pySlice data 16 18 = [data.getD 16 0, data.getD 17 0] :=
    slice_pair data 16 18 (by norm_num) (by omega)
  have h18 : pySlice data 18 20 = [data.getD 18 0, data.getD 19 0] :=
    slice_pair data 18 20 (by norm_num) (by omega)
  simp [parse_opple_data, hu, hl, parse20, h14, h16, h18, structUnpackLEu16,
    u16LE]

lemma parse_cmd11_eq (data : List Nat) (uuid : String)
    (hu : uuid.toLower = OPPLE_CHARACTERISTIC_UUID_COMMAND_TX.toLower)
    (hl : data.length = 11) :
    parse_opple_data data uuid = .ok (.battery11 data (u16BE data 8)) := by
  have h8 : pySlice data 8 10 = [data.getD 8 0, data.getD 9 0] :=
    slice_pair data 8 10 (by norm_num) (by omega)
  simp [parse_opple_data, hu, hl, parse11, h8, structUnpackBEu16, u16BE]

lemma getD_lt_of_bytes (l : List Nat) (i : Nat) (h : i < l.length)
    (hb : ∀ b ∈ l, b < 256) : l.getD i 0 < 256 := by
  rw [List.getD_eq_getElem?_getD, List.getElem?_eq_getElem h, Option.getD_some]
  exact hb _ (List.getElem_mem h)

lemma u16LE_lt (l : List Nat) (i : Nat) (h : i + 1 < l.length)
    (hb : ∀ b ∈ l, b < 256) : u16LE l i < 65536 := by
  have h0 := getD_lt_of_bytes l i (by omega) hb
  have h1 := getD_lt_of_bytes l (i + 1) h hb
  unfold u16LE
  omega

lemma u16BE_lt (l : List Nat) (i : Nat) (h : i + 1 < l.length)
    (hb : ∀ b ∈ l, b < 256) : u16BE l i < 65536 := by
  have h0 := getD_lt_of_bytes l i (by omega) hb
  have h1 := getD_lt_of_bytes l (i + 1) h hb
  unfold u16BE
  omega

lemma getD_append_right_len (l t : List Nat) (k : Nat) (h : l.length ≤ k) :
    (l ++ t).getD k 0 = t.getD (k - l.length) 0 := by
  rw [List.getD_eq_getElem?_getD, List.getD_eq_getElem?_getD,
    List.getElem?_append_right h]

/-- C1: every 20-byte frame on the command channel yields a PrimarySample
whose three raw fields are the unsigned 16-bit little-endian integers at
byte offsets 14-15, 16-17, 18-19, with state DARK exactly when all three
decoded fields are zero and LIGHT_DETECTED otherwise. -/
theorem c1_primary20_fields_and_state (data : List Nat) (uuid : String)
    (hu : uuid.toLower = OPPLE_CHARACTERISTIC_UUID_COMMAND_TX.toLower)
    (hl : data.length = 20) (hb : ∀ b ∈ data, b < 256) :
    ∃ st : MeasState,
      parse_opple_data data uuid =
        .ok (.measurement20 data (u16LE data 14) (u16LE data 16)
          (u16LE data 18) st) ∧
      u16LE data 14 < 65536 ∧ u16LE data 16 < 65536 ∧ u16LE data 18 < 65536 ∧
      (st = .DARK ↔
        u16LE data 14 = 0 ∧ u16LE data 16 = 0 ∧ u16LE data 18 = 0) ∧
      (st = .LIGHT_DETECTED ↔
        ¬(u16LE data 14 = 0 ∧ u16LE data 16 = 0 ∧ u16LE data 18 = 0)) := by
  refine ⟨if u16LE data 14 = 0 ∧ u16LE data 16 = 0 ∧ u16LE data 18 = 0
      then .DARK else .LIGHT_DETECTED, parse_cmd20_eq data uuid hu hl,
    u16LE_lt data 14 (by omega) hb, u16LE_lt data 16 (by omega) hb,
    u16LE_lt data 18 (by omega) hb, ?_, ?_⟩ <;>
  · by_cases hz : u16LE data 14 = 0 ∧ u16LE data 16 = 0 ∧ u16LE data 18 = 0 <;>
      simp [hz]

/-- Evaluation of `c1_primary20_fields_and_state` at a concrete frame. -/
theorem c1_witness :
    OPPLE_CHARACTERISTIC_UUID_COMMAND_TX.toLower =
        OPPLE_CHARACTERISTIC_UUID_COMMAND_TX.toLower ∧
    dataW20.length = 20 ∧ (∀ b ∈ dataW20, b < 256) ∧
    (∃ st : MeasState,
      parse_opple_data dataW20 OPPLE_CHARACTERISTIC_UUID_COMMAND_TX =
        .ok (.measurement20 dataW20 (u16LE dataW20 14) (u16LE dataW20 16)
          (u16LE dataW20 18) st) ∧
      u16LE dataW20 14 < 65536 ∧ u16LE dataW20 16 < 65536 ∧
      u16LE dataW20 18 < 65536 ∧
      (st = .DARK ↔
        u16LE dataW20 14 = 0 ∧ u16LE dataW20 16 = 0 ∧ u16LE dataW20 18 = 0) ∧
      (st = .LIGHT_DETECTED ↔
        ¬(u16LE dataW20 14 = 0 ∧ u16LE dataW20 16 = 0 ∧
          u16LE dataW20 18 = 0))) :=
  ⟨rfl, by decide, by decide,
    c1_primary20_fields_and_state dataW20 _ rfl (by decide) (by decide)⟩

/-- C2: a 20-byte command-channel frame whose bytes 14-19 are
0x0b 0x00 0xb2 0x10 0x82 0x16 decodes to raw fields (11, 4274, 5762) with
state LIGHT_DETECTED. -/
theorem c2_worked_example (pre : List Nat) (h14 : pre.length = 14) :
    parse_opple_data (pre ++ [0x0b, 0x00, 0xb2, 0x10, 0x82, 0x16])
        OPPLE_CHARACTERISTIC_UUID_COMMAND_TX =
      .ok (.measurement20 (pre ++ [0x0b, 0x00, 0xb2, 0x10, 0x82, 0x16])
        11 4274 5762 .LIGHT_DETECTED) := by
  have hl : (pre ++ [(0x0b : Nat), 0x00, 0xb2, 0x10, 0x82, 0x16]).length = 20 := by
    simp [h14]
  rw [parse_cmd20_eq _ _ rfl hl]
  have e : ∀ k : Nat,
      (pre ++ [(0x0b : Nat), 0x00, 0xb2, 0x10, 0x82, 0x16]).getD (14 + k) 0 =
        [(0x0b : Nat), 0x00, 0xb2, 0x10, 0x82, 0x16].getD k 0 := by
    intro k
    rw [getD_append_right_len _ _ _ (by omega), h14]
    congr 1
    omega
  have e14 : (pre ++ [(0x0b : Nat), 0x00, 0xb2, 0x10, 0x82, 0x16]).getD 14 0 = 0x0b := by
    simpa using e 0
  have e15 : (pre ++ [(0x0b : Nat), 0x00, 0xb2, 0x10, 0x82, 0x16]).getD 15 0 = 0x00 := by
    simpa using e 1
  have e16 : (pre ++ [(0x0b : Nat), 0x00, 0xb2, 0x10, 0x82, 0x16]).getD 16 0 = 0xb2 := by
    simpa using e 2
  have e17 : (pre ++ [(0x0b : Nat), 0x00, 0xb2, 0x10, 0x82, 0x16]).getD 17 0 = 0x10 := by
    simpa using e 3
  have e18 : (pre ++ [(0x0b : Nat), 0x00, 0xb2, 0x10, 0x82, 0x16]).getD 18 0 = 0x82 := by
    simpa using e 4
  have e19 : (pre ++ [(0x0b : Nat), 0x00, 0xb2, 0x10, 0x82, 0x16]).getD 19 0 = 0x16 := by
    simpa using e 5
  simp only [u16LE, Nat.reduceAdd]
  simp only [e14, e15, e16, e17, e18, e19]
  norm_num

/-- Evaluation of `c2_worked_example` at a concrete 14-byte preamble. -/
theorem c2_witness :
    (List.replicate 14 (0 : Nat)).length = 14 ∧
    parse_opple_data
        (List.replicate 14 (0 : Nat) ++ [0x0b, 0x00, 0xb2, 0x10, 0x82, 0x16])
        OPPLE_CHARACTERISTIC_UUID_COMMAND_TX =
      .ok (.measurement20
        (List.replicate 14 (0 : Nat) ++ [0x0b, 0x00, 0xb2, 0x10, 0x82, 0x16])
        11 4274 5762 .LIGHT_DETECTED) :=
  ⟨by decide, c2_worked_example (List.replicate 14 0) (by decide)⟩

/-- C3: every 11-byte frame on the command channel yields an
AuxiliarySample whose battery field is the unsigned 16-bit big-endian
integer at byte offsets 8-9; bytes 0x27 0x10 there give 10000. -/
theorem c3_auxiliary11_battery_be (data : List Nat) (uuid : String)
    (hu : uuid.toLower = OPPLE_CHARACTERISTIC_UUID_COMMAND_TX.toLower)
    (hl : data.length = 11) (hb : ∀ b ∈ data, b < 256) :
    parse_opple_data data uuid = .ok (.battery11 data (u16BE data 8)) ∧
    u16BE data 8 < 65536 ∧
    (data.getD 8 0 = 0x27 → data.getD 9 0 = 0x10 → u16BE data 8 = 10000) := by
  refine ⟨parse_cmd11_eq data uuid hu hl, u16BE_lt data 8 (by omega) hb, ?_⟩
  intro h8 h9
  simp only [u16BE, Nat.reduceAdd]
  rw [h8, h9]

/-- Evaluation of `c3_auxiliary11_battery_be` at a concrete frame. -/
theorem c3_witness :
    OPPLE_CHARACTERISTIC_UUID_COMMAND_TX.toLower =
        OPPLE_CHARACTERISTIC_UUID_COMMAND_TX.toLower ∧
    dataW11.length = 11 ∧ (∀ b ∈ dataW11, b < 256) ∧
    (parse_opple_data dataW11 OPPLE_CHARACTERISTIC_UUID_COMMAND_TX =
        .ok (.battery11 dataW11 (u16BE dataW11 8)) ∧
      u16BE dataW11 8 < 65536 ∧
      (dataW11.getD 8 0 = 0x27 → dataW11.getD 9 0 = 0x10 →
        u16BE dataW11 8 = 10000)) :=
  ⟨rfl, by decide, by decide,
    c3_auxiliary11_battery_be dataW11 _ rfl (by decide) (by decide)⟩

/-- C9: the classifier never lets an exception escape to its caller; every
channel identifier and byte sequence produces some explicit result (decoded
record, decode-failure string, or unrecognized-frame record). -/
theorem c9_classifier_never_raises (data : List Nat) (uuid : String) :
    ∃ r : ParseResult, parse_opple_data data uuid = .ok r := by
  unfold parse_opple_data
  split_ifs <;> exact ⟨_, rfl⟩

/-- C10: for frames of exactly 20 (resp. 11) bytes on the command channel
the decode-failure branch is unreachable: the classifier always returns the
successful PrimarySample (resp. AuxiliarySample) record. -/
theorem c10_exact_length_decode_total (data : List Nat) (uuid : String)
    (hu : uuid.toLower = OPPLE_CHARACTERISTIC_UUID_COMMAND_TX.toLower) :
    (data.length = 20 →
      ∃ v1 v2 v3 st, parse_opple_data data uuid =
        .ok (.measurement20 data v1 v2 v3 st)) ∧
    (data.length = 11 →
      ∃ mv, parse_opple_data data uuid = .ok (.battery11 data mv)) :=
  ⟨fun hl => ⟨_, _, _, _, parse_cmd20_eq data uuid hu hl⟩,
   fun hl => ⟨_, parse_cmd11_eq data uuid hu hl⟩⟩

/-- Evaluation of `c10_exact_length_decode_total` at concrete frames of
both lengths. -/
theorem c10_witness :
    OPPLE_CHARACTERISTIC_UUID_COMMAND_TX.toLower =
        OPPLE_CHARACTERISTIC_UUID_COMMAND_TX.toLower ∧
    dataW20.length = 20 ∧ dataW11.length = 11 ∧
    (∃ v1 v2 v3 st,
      parse_opple_data dataW20 OPPLE_CHARACTERISTIC_UUID_COMMAND_TX =
        .ok (.measurement20 dataW20 v1 v2 v3 st)) ∧
    (∃ mv, parse_opple_data dataW11 OPPLE_CHARACTERISTIC_UUID_COMMAND_TX =
      .ok (.battery11 dataW11 mv)) :=
  ⟨rfl, by decide, by decide,
    (c10_exact_length_decode_total dataW20 _ rfl).1 (by decide),
    (c10_exact_length_decode_total dataW11 _ rfl).2 (by decide)⟩

/-- C4: an AuxiliarySample sets the last buffered record's battery field
when the buffer is non-empty and that field is still null, and is discarded
(buffer unchanged) otherwise; a second AuxiliarySample before any new
primary sample leaves the field at its first value, and earlier records are
never touched. -/
theorem c4_auxiliary_association (buf : List MRecord) (ts : String)
    (rh : List Nat) (mv : Nat) :
    (buf = [] → on_decoded buf ts (.battery11 rh mv) = buf) ∧
    (∀ p lastRec, buf = p ++ [lastRec] →
      (lastRec.RawBattery_mV = none →
        on_decoded buf ts (.battery11 rh mv) =
          p ++ [{ lastRec with RawBattery_mV := some mv }]) ∧
      (lastRec.RawBattery_mV ≠ none →
        on_decoded buf ts (.battery11 rh mv) = buf)) ∧
    (∀ p lastRec ts2 rh2 mv2, buf = p ++ [lastRec] →
      lastRec.RawBattery_mV = none →
      on_decoded (on_decoded buf ts (.battery11 rh mv)) ts2
          (.battery11 rh2 mv2) =
        p ++ [{ lastRec with RawBattery_mV := some mv }]) := by
  refine ⟨?_, ?_, ?_⟩
  · rintro rfl
    rfl
  · rintro p lastRec rfl
    constructor
    · intro hnone
      simp [on_decoded, List.getLast?_concat, List.dropLast_concat, hnone]
    · intro hsome
      simp [on_decoded, List.getLast?_concat, hsome]
  · rintro p lastRec ts2 rh2 mv2 rfl hnone
    have h1 : on_decoded (p ++ [lastRec]) ts (.battery11 rh mv) =
        p ++ [{ lastRec with RawBattery_mV := some mv }] := by
      simp [on_decoded, List.getLast?_concat, List.dropLast_concat, hnone]
    rw [h1]
    simp [on_decoded, List.getLast?_concat, List.dropLast_concat]

/-- Evaluation of `c4_auxiliary_association` at a concrete one-record
buffer: the first auxiliary sample attaches, the second is discarded. -/
theorem c4_witness :
    on_decoded [recW] "t2" (.battery11 dataW11 4970) =
      [{ recW with RawBattery_mV := some 4970 }] ∧
    on_decoded (on_decoded [recW] "t2" (.battery11 dataW11 4970)) "t3"
        (.battery11 dataW11 4800) =
      [{ recW with RawBattery_mV := some 4970 }] :=
  ⟨((c4_auxiliary_association [recW] "t2" dataW11 4970).2.1 [] recW rfl).1 rfl,
   (c4_auxiliary_association [recW] "t2" dataW11 4970).2.2 [] recW "t3"
     dataW11 4800 rfl rfl⟩

lemma parse_light_not_all_zero {data : List Nat} {uuid : String}
    {rh : List Nat} {v1 v2 v3 : Nat}
    (h : parse_opple_data data uuid =
      .ok (.measurement20 rh v1 v2 v3 .LIGHT_DETECTED)) :
    ¬(v1 = 0 ∧ v2 = 0 ∧ v3 = 0) := by
  intro hz
  unfold parse_opple_data at h
  split at h
  · split at h
    · simp only [Except.ok.injEq] at h
      unfold parse20 at h
      split at h
      · simp only [ParseResult.measurement20.injEq] at h
        obtain ⟨-, h1, h2, h3, hst⟩ := h
        rw [if_pos ⟨h1.trans hz.1, h2.trans hz.2.1, h3.trans hz.2.2⟩] at hst
        exact MeasState.noConfusion hst
      all_goals simp at h
    · split at h
      · simp only [Except.ok.injEq] at h
        unfold parse11 at h
        split at h <;> simp at h
      · simp at h
  · split at h <;> simp at h

lemma on_decoded_battery (buf : List MRecord) (ts : String) (rh : List Nat)
    (mv : Nat) :
    on_decoded buf ts (.battery11 rh mv) =
      match buf.getLast? with
      | some lastRec =>
          if lastRec.RawBattery_mV = none then
            buf.dropLast ++ [{ lastRec with RawBattery_mV := some mv }]
          else buf
      | none => buf := rfl

lemma notification_handler_preserves (buf : List MRecord) (ts uuid : String)
    (data : List Nat) (hbuf : ∀ rec ∈ buf, lightBuffered rec) :
    ∀ rec ∈ notification_handler buf ts uuid data, lightBuffered rec := by
  intro rec hrec
  unfold notification_handler at hrec
  cases hps : parse_opple_data data uuid with
  | error e =>
      rw [hps] at hrec
      exact hbuf rec hrec
  | ok r =>
      rw [hps] at hrec
      cases r with
      | measurement20 rh v1 v2 v3 st =>
          cases st with
          | DARK =>
              simp only [on_decoded, reduceCtorEq, if_false] at hrec
              exact hbuf rec hrec
          | LIGHT_DETECTED =>
              simp only [on_decoded, if_true, List.mem_append] at hrec
              rcases hrec with hrec | hrec
              · exact hbuf rec hrec
              · rcases List.mem_singleton.mp hrec with rfl
                refine ⟨by simp [mkMeasurementEntry], by simp [mkMeasurementEntry],
                  by simp [mkMeasurementEntry], ?_⟩
                have := parse_light_not_all_zero hps
                simp only [mkMeasurementEntry, Option.some.injEq]
                exact fun hc => this ⟨hc.1, hc.2.1, hc.2.2⟩
      | battery11 rh mv =>
          replace hrec : rec ∈ on_decoded buf ts (.battery11 rh mv) := hrec
          rcases hLast : buf.getLast? with _ | lastRec
          · rw [show on_decoded buf ts (.battery11 rh mv) = buf from by
              rw [on_decoded_battery, hLast]] at hrec
            exact hbuf rec hrec
          · rw [show on_decoded buf ts (.battery11 rh mv) =
                (if lastRec.RawBattery_mV = none then
                  buf.dropLast ++ [{ lastRec with RawBattery_mV := some mv }]
                 else buf) from by rw [on_decoded_battery, hLast]] at hrec
            by_cases hbm : lastRec.RawBattery_mV = none
            · rw [if_pos hbm] at hrec
              rcases List.mem_append.mp hrec with h1 | h1
              · exact hbuf rec (List.dropLast_subset buf h1)
              · rcases List.mem_singleton.mp h1 with rfl
                have hl := hbuf lastRec (List.mem_of_getLast?_eq_some hLast)
                simpa [lightBuffered] using hl
            · rw [if_neg hbm] at hrec
              exact hbuf rec hrec
      | unknownLenFromCommandChar a b => exact hbuf rec hrec
      | rxCandidate a b => exact hbuf rec hrec
      | errorString m => exact hbuf rec hrec
      | infoString m => exact hbuf rec hrec

lemma handleFrames_preserves (frames : List Frame) (buf : List MRecord)
    (hbuf : ∀ rec ∈ buf, lightBuffered rec) :
    ∀ rec ∈ handleFrames buf frames, lightBuffered rec := by
  induction frames generalizing buf with
  | nil => exact hbuf
  | cons f fs ih =>
      exact ih _ (notification_handler_preserves buf f.1 f.2.1 f.2.2 hbuf)

/-- C5: for every sequence of delivered frames processed from the cleared
buffer, every buffered record carries three present raw fields that are not
all zero, i.e. it was created from a LIGHT_DETECTED primary sample; the
buffer contains zero DARK records. -/
theorem c5_dark_frames_never_buffered (frames : List Frame) (rec : MRecord)
    (hrec : rec ∈ handleFrames [] frames) : lightBuffered rec :=
  handleFrames_preserves frames [] (by simp) rec hrec

lemma handleFramesW_eq : handleFrames [] framesW = [recW] := by
  show notification_handler [] "t1" OPPLE_CHARACTERISTIC_UUID_COMMAND_TX
    dataW20 = [recW]
  unfold notification_handler
  rw [parse_cmd20_eq dataW20 OPPLE_CHARACTERISTIC_UUID_COMMAND_TX rfl
    (by decide)]
  norm_num [u16LE, dataW20, on_decoded, recW, mkMeasurementEntry]

/-- Evaluation of `c5_dark_frames_never_buffered` at a concrete frame
sequence. -/
theorem c5_witness :
    recW ∈ handleFrames [] framesW ∧ lightBuffered recW :=
  ⟨handleFramesW_eq ▸ List.mem_singleton.mpr rfl,
   c5_dark_frames_never_buffered framesW recW
     (handleFramesW_eq ▸ List.mem_singleton.mpr rfl)⟩

/-- C6 counterexample: exporting an empty record list does not produce a
header-only file; the function returns early and writes nothing. -/
theorem c6_counterexample :
    save_measurements_to_csv [] ≠ some (fieldnames, []) := by
  simp [save_measurements_to_csv]

/-- C6 amended: exporting an empty phase buffer raises no error but writes
no output file at all (early return on the empty list), so no header row is
produced; the header is written exactly when at least one record exists. -/
theorem c6_empty_export_writes_no_file :
    save_measurements_to_csv [] = none := rfl

lemma meanOfPresent_map (f : MRecord → Option Nat) (ms : List MRecord) :
    meanOfPresent (ms.map f) = averageOf (ms.filterMap f) := by
  unfold meanOfPresent averageOf
  rw [List.filterMap_map]
  simp only [Function.id_comp]
  cases h : ms.filterMap f with
  | nil => simp [h]
  | cons a t => simp [h]

/-- C8: each of the four reported aggregate statistics equals the
arithmetic mean of the non-null values of its field across the buffered
records (null and absent excluded), and is null when no record has a
value for that field. -/
theorem c8_average_is_mean_of_non_null (measurements : List MRecord) :
    calculate_average measurements =
      ⟨meanOfPresent (measurements.map MRecord.RawVal_1),
       meanOfPresent (measurements.map MRecord.RawVal_2),
       meanOfPresent (measurements.map MRecord.RawVal_3),
       meanOfPresent (measurements.map MRecord.RawBattery_mV)⟩ := by
  rcases measurements with _ | ⟨m, ms⟩
  · simp [calculate_average, meanOfPresent]
  · simp only [calculate_average, meanOfPresent_map]
    rw [if_neg (by simp)]

lemma runLoopFrom_step (env : TransportEnv) (i fuel : Nat)
    (buf : List MRecord) (tr : List (Nat × PhaseCmd))
    (hs : env.startOk i = true) (ht : env.stopOk i = true) :
    runLoopFrom env i (fuel + 1) buf tr =
      runLoopFrom env (i + 1) fuel
        (handleFrames (handleFrames buf (env.framesAfterStart i))
          (env.framesAfterStop i))
        (tr ++ [(i, .START_MEASUREMENT), (i, .STOP_MEASUREMENT)]) := by
  simp [runLoopFrom, runIter, hs, ht]

lemma runLoopFrom_stop (env : TransportEnv) (i fuel : Nat)
    (buf : List MRecord) (tr : List (Nat × PhaseCmd))
    (hfail : env.startOk i = false ∨ env.stopOk i = false) :
    runLoopFrom env i (fuel + 1) buf tr =
      ((if env.startOk i then handleFrames buf (env.framesAfterStart i)
        else buf),
       tr ++ (if env.startOk i then
           [(i, .START_MEASUREMENT), (i, .STOP_MEASUREMENT)]
         else [(i, .START_MEASUREMENT)]),
       i + 1) := by
  by_cases hs : env.startOk i = true
  · have ht : env.stopOk i = false := by
      rcases hfail with hf | hf
      · rw [hs] at hf
        cases hf
      · exact hf
    simp [runLoopFrom, runIter, hs, ht]
  · have hs' : env.startOk i = false := by
      rcases Bool.dichotomy (env.startOk i) with h | h
      · exact h
      · exact absurd h hs
    simp [runLoopFrom, runIter, hs']

lemma runLoopFrom_through (env : TransportEnv) (i n : Nat)
    (hpre : ∀ j, j < i → env.startOk j = true ∧ env.stopOk j = true)
    (hi : i ≤ n) :
    runLoopFrom env 0 n [] [] =
      runLoopFrom env i (n - i) (bufThroughFull env i)
        (traceThroughFull env i) := by
  induction i with
  | zero => simp [bufThroughFull, traceThroughFull]
  | succ k ih =>
      rw [ih (fun j hj => hpre j (by omega)) (by omega)]
      rw [show n - k = (n - (k + 1)) + 1 by omega]
      rw [runLoopFrom_step env k _ _ _ (hpre k (by omega)).1
        (hpre k (by omega)).2]
      rfl

lemma traceThroughFull_bound (env : TransportEnv) (i : Nat) :
    ∀ p ∈ traceThroughFull env i, p.1 < i := by
  induction i with
  | zero => simp [traceThroughFull]
  | succ k ih =>
      intro p hp
      simp only [traceThroughFull, List.mem_append] at hp
      rcases hp with h | h
      · exact Nat.lt_succ_of_lt (ih p h)
      · simp only [List.mem_cons, List.not_mem_nil, or_false] at h
        rcases h with rfl | rfl
        · exact Nat.lt_succ_self k
        · exact Nat.lt_succ_self k

/-- C7: if a command write fails at iteration i of n (every earlier
iteration's writes succeeded), the polling loop enters no iteration after
i, every attempted command write belongs to an iteration at most i, the
records buffered before the failure survive unchanged, and exactly that
buffer is handed to the CSV export. -/
theorem c7_write_failure_fail_fast (env : TransportEnv) (n i : Nat)
    (hi : i < n)
    (hpre : ∀ j, j < i → env.startOk j = true ∧ env.stopOk j = true)
    (hfail : env.startOk i = false ∨ env.stopOk i = false) :
    (run_measurement_phase env n).itersRun = i + 1 ∧
    (∀ p ∈ (run_measurement_phase env n).trace, p.1 ≤ i) ∧
    (run_measurement_phase env n).buffer =
      (if env.startOk i then
        handleFrames (bufThroughFull env i) (env.framesAfterStart i)
       else bufThroughFull env i) ∧
    (run_measurement_phase env n).exported =
      save_measurements_to_csv
        (if env.startOk i then
          handleFrames (bufThroughFull env i) (env.framesAfterStart i)
         else bufThroughFull env i) := by
  have hloop : runLoopFrom env 0 n [] [] =
      ((if env.startOk i then
         handleFrames (bufThroughFull env i) (env.framesAfterStart i)
        else bufThroughFull env i),
       traceThroughFull env i ++
         (if env.startOk i then
           [(i, .START_MEASUREMENT), (i, .STOP_MEASUREMENT)]
          else [(i, .START_MEASUREMENT)]),
       i + 1) := by
    rw [runLoopFrom_through env i n hpre (by omega),
      show n - i = (n - (i + 1)) + 1 by omega,
      runLoopFrom_stop env i _ _ _ hfail]
  refine ⟨?_, ?_, ?_, ?_⟩
  · simp [run_measurement_phase, hloop]
  · intro p hp
    simp only [run_measurement_phase, hloop] at hp
    rcases List.mem_append.mp hp with h | h
    · exact Nat.le_of_lt (traceThroughFull_bound env i p h)
    · by_cases hs : env.startOk i = true
      · simp [hs] at h
        rcases h with rfl | rfl
        · exact Nat.le_refl i
        · exact Nat.le_refl i
      · simp [hs] at h
        rcases h with rfl
        exact Nat.le_refl i
  · simp [run_measurement_phase, hloop]
  · simp [run_measurement_phase, hloop]

/-- Evaluation of `c7_write_failure_fail_fast` at a concrete environment
where the START write of iteration 1 of 3 fails. -/
theorem c7_witness :
    1 < 3 ∧ (∀ j, j < 1 → envW.startOk j = true ∧ envW.stopOk j = true) ∧
    (envW.startOk 1 = false ∨ envW.stopOk 1 = false) ∧
    ((run_measurement_phase envW 3).itersRun = 1 + 1 ∧
     (∀ p ∈ (run_measurement_phase envW 3).trace, p.1 ≤ 1) ∧
     (run_measurement_phase envW 3).buffer =
       (if envW.startOk 1 then
         handleFrames (bufThroughFull envW 1) (envW.framesAfterStart 1)
        else bufThroughFull envW 1) ∧
     (run_measurement_phase envW 3).exported =
       save_measurements_to_csv
         (if envW.startOk 1 then
           handleFrames (bufThroughFull envW 1) (envW.framesAfterStart 1)
          else bufThroughFull envW 1)) :=
  ⟨by decide, by decide, by decide,
    c7_write_failure_fail_fast envW 3 1 (by decide) (by decide) (by decide)⟩
